import Mathlib

set_option autoImplicit false

/-
Verification of `manage.py` (clusterfun): a deployment-bundle builder for
CloudFormation templates, Lambda bundles and JSON configuration files.

The source is Python 2.  The embedding below models:
  - JSON documents as ordered key/value association lists (the "stable JSON
    key ordering" proviso of the spec: a dictionary is modelled as the ordered
    list of its entries, `d[k] = v` replaces the value in place when the key
    is present and appends the entry otherwise, and serialization order is the
    list order);
  - file contents and Python 2 `str` values (byte strings) as `List Nat`
    (each element a byte value);
  - external collaborators (the CloudFormation validation API, S3, pip) as
    either emitted-call descriptions or function parameters;
  - `hashlib.md5` by a full executable MD5 (RFC 1321) over byte lists.
-/

/-- JSON values. Objects are ordered association lists (see the header note). -/
inductive Json where
  | null
  | bool (b : Bool)
  | num (n : Int)
  | str (s : String)
  | arr (elems : List Json)
  | obj (members : List (String × Json))

/-- Python dictionary lookup `d[k]` on the ordered-entry model: first entry
with the given key. -/
def lookupKey (k : String) : List (String × Json) → Option Json
  | [] => none
  | (a, v) :: rest => if a = k then some v else lookupKey k rest

/-- Python dictionary assignment `d[k] = v` on the ordered-entry model:
replace the value in place if the key is present, append otherwise. -/
def setKey (l : List (String × Json)) (k : String) (v : Json) : List (String × Json) :=
  match l with
  | [] => [(k, v)]
  | (a, b) :: rest => if a = k then (k, v) :: rest else (a, b) :: setKey rest k v

/-- The keys of an object, in order. -/
def objKeys (l : List (String × Json)) : List String := l.map Prod.fst

/-- One iteration of the loop `for k, v in fields.iteritems(): data[...][k] = v`
applied to a parameter object: all field assignments in sequence. -/
def applyFields (fields : List (String × Json)) (params : List (String × Json)) :
    List (String × Json) :=
  fields.foldl (fun ps kv => setKey ps kv.1 kv.2) params

/-- One assignment `data[quotedParameters][k] = v` of `_render_configuration`
(manage.py line 121): requires `data` to be an object whose member named
Parameters is itself an object; Python raises (KeyError / TypeError) otherwise,
modelled by `none`. -/
def setParam (doc : Json) (k : String) (v : Json) : Option Json :=
  match doc with
  | Json.obj members =>
    match lookupKey "Parameters" members with
    | some (Json.obj params) =>
        some (Json.obj (setKey members "Parameters" (Json.obj (setKey params k v))))
    | _ => none
  | _ => none

/-- `_render_configuration` (manage.py lines 116-123) on an already-parsed
document: the loop `for k, v in fields.iteritems(): data[...][k] = v`, with the
resulting document written out.  The written bytes are the serialization of the
returned document, so document equality is byte equality of the output. -/
def renderConfig (doc : Json) (fields : List (String × Json)) : Option Json :=
  fields.foldl (fun acc kv => acc.bind (fun d => setParam d kv.1 kv.2)) (some doc)

-- Constants of manage.py (lines 15-23).

def S3_BUCKET : String := "kinja-cloudformation-validator"

def CLOUDFORMATION_LOCAL_VALIDATE_LIMIT : Nat := 51200

def LAMBDA_PY_FILE_NAME : String := "function.py"

def LAMBDA_REQUIRED_FILES : List String := [LAMBDA_PY_FILE_NAME, "requirements.txt"]

-- Executable MD5 (RFC 1321) over byte lists, modelling `hashlib.md5(path).hexdigest()`
-- used at manage.py line 146.  32-bit words are Nat values reduced mod 2^32.

/-- Truncate to a 32-bit word. -/
def w32 (x : Nat) : Nat := x % 4294967296

/-- Left-rotate a 32-bit word by n bits (0 < n < 32). -/
def rotl32 (x n : Nat) : Nat := w32 ((x <<< n) + (x >>> (32 - n)))

/-- Bitwise complement within 32 bits (for x < 2^32). -/
def compl32 (x : Nat) : Nat := 4294967295 - x

/-- MD5 round function F. -/
def mdF (b c d : Nat) : Nat := (b &&& c) ||| (compl32 b &&& d)

/-- MD5 round function G. -/
def mdG (b c d : Nat) : Nat := (d &&& b) ||| (compl32 d &&& c)

/-- MD5 round function H. -/
def mdH (b c d : Nat) : Nat := b ^^^ c ^^^ d

/-- MD5 round function I. -/
def mdI (b c d : Nat) : Nat := c ^^^ (b ||| compl32 d)

/-- MD5 sine-derived constant table K. -/
def md5K : List Nat := [3614090360, 3905402710, 606105819, 3250441966, 4118548399,
  1200080426, 2821735955, 4249261313, 1770035416, 2336552879, 4294925233, 2304563134,
  1804603682, 4254626195, 2792965006, 1236535329, 4129170786, 3225465664, 643717713,
  3921069994, 3593408605, 38016083, 3634488961, 3889429448, 568446438, 3275163606,
  4107603335, 1163531501, 2850285829, 4243563512, 1735328473, 2368359562, 4294588738,
  2272392833, 1839030562, 4259657740, 2763975236, 1272893353, 4139469664, 3200236656,
  681279174, 3936430074, 3572445317, 76029189, 3654602809, 3873151461, 530742520,
  3299628645, 4096336452, 1126891415, 2878612391, 4237533241, 1700485571, 2399980690,
  4293915773, 2240044497, 1873313359, 4264355552, 2734768916, 1309151649, 4149444226,
  3174756917, 718787259, 3951481745]

/-- MD5 per-step rotation amounts. -/
def md5S : List Nat := [7, 12, 17, 22, 7, 12, 17, 22, 7, 12, 17, 22, 7, 12, 17, 22,
  5, 9, 14, 20, 5, 9, 14, 20, 5, 9, 14, 20, 5, 9, 14, 20,
  4, 11, 16, 23, 4, 11, 16, 23, 4, 11, 16, 23, 4, 11, 16, 23,
  6, 10, 15, 21, 6, 10, 15, 21, 6, 10, 15, 21, 6, 10, 15, 21]

/-- Byte i of a byte list (0 past the end; inputs are byte values). -/
def byteAt (bytes : List Nat) (i : Nat) : Nat := bytes.getD i 0 % 256

/-- Little-endian 32-bit word i of a byte list. -/
def leWord (bytes : List Nat) (i : Nat) : Nat :=
  byteAt bytes (4 * i) + 256 * byteAt bytes (4 * i + 1)
    + 65536 * byteAt bytes (4 * i + 2) + 16777216 * byteAt bytes (4 * i + 3)

/-- MD5 padding: append 0x80, zero bytes to 56 mod 64, then the 64-bit
little-endian bit length. -/
def md5pad (msg : List Nat) : List Nat :=
  let len := msg.length
  let z := (119 - len % 64) % 64
  let lenBytes := (List.range 8).map (fun i => ((len * 8) >>> (8 * i)) % 256)
  msg ++ 128 :: (List.replicate z 0 ++ lenBytes)

/-- One MD5 step (step index i, block words X, state (a, b, c, d)). -/
def md5round (X : List Nat) (st : Nat × Nat × Nat × Nat) (i : Nat) : Nat × Nat × Nat × Nat :=
  match st with
  | (a, b, c, d) =>
    let f := if i < 16 then mdF b c d else if i < 32 then mdG b c d
             else if i < 48 then mdH b c d else mdI b c d
    let g := if i < 16 then i else if i < 32 then (5 * i + 1) % 16
             else if i < 48 then (3 * i + 5) % 16 else (7 * i) % 16
    let tmp := w32 (a + f + md5K.getD i 0 + X.getD g 0)
    (d, w32 (b + rotl32 tmp (md5S.getD i 0)), b, c)

/-- Process one 64-byte block: 64 steps, then add the input state. -/
def md5block (st : Nat × Nat × Nat × Nat) (X : List Nat) : Nat × Nat × Nat × Nat :=
  match st, (List.range 64).foldl (md5round X) st with
  | (a0, b0, c0, d0), (a, b, c, d) => (w32 (a0 + a), w32 (b0 + b), w32 (c0 + c), w32 (d0 + d))

/-- The 16 words of block j of a padded message. -/
def md5words (padded : List Nat) (j : Nat) : List Nat :=
  (List.range 16).map (fun i => leWord padded (16 * j + i))

/-- Little-endian bytes of a 32-bit word. -/
def leBytes32 (x : Nat) : List Nat := [x % 256, (x >>> 8) % 256, (x >>> 16) % 256, (x >>> 24) % 256]

/-- MD5 digest (16 bytes) of a byte list. -/
def md5digest (msg : List Nat) : List Nat :=
  let padded := md5pad msg
  let nblocks := padded.length / 64
  match (List.range nblocks).foldl (fun st j => md5block st (md5words padded j))
      (1732584193, 4023233417, 2562383102, 271733878) with
  | (a, b, c, d) => leBytes32 a ++ leBytes32 b ++ leBytes32 c ++ leBytes32 d

/-- Lowercase hex digit. -/
def hexChar (n : Nat) : Char := if n < 10 then Char.ofNat (48 + n) else Char.ofNat (87 + n)

/-- Two lowercase hex digits of a byte. -/
def byteToHex (b : Nat) : String := String.mk [hexChar (b / 16), hexChar (b % 16)]

/-- `hashlib.md5(msg).hexdigest()`. -/
def md5hex (msg : List Nat) : String := String.join ((md5digest msg).map byteToHex)

-- CloudFormation template validation (manage.py lines 127-162).
-- A template file is modelled by its path (a Python 2 byte string) and its
-- content bytes; `os.stat(path).st_size` is the content length.  The remote
-- CloudFormation / S3 services are opaque: the validators are modelled by the
-- API interaction they emit.

/-- A CloudFormation template file on disk. -/
structure TemplateFile where
  path : List Nat
  content : List Nat
deriving DecidableEq

/-- `_get_file_size` (manage.py lines 107-109). -/
def get_file_size (f : TemplateFile) : Nat := f.content.length

/-- The provider interaction a validation performs: local sends the raw body,
remote uploads to a bucket under a key and validates by URL. -/
inductive CfnApiCall where
  | validateLocal (templateBody : List Nat)
  | validateRemote (bucket : String) (key : String) (uploadedBody : List Nat) (templateURL : String)
deriving DecidableEq

/-- `validate_local_cloudformation_template` (manage.py lines 127-141): reads
the file and calls validate_template(TemplateBody=body). -/
def validate_local_cloudformation_template (f : TemplateFile) : CfnApiCall :=
  CfnApiCall.validateLocal f.content

/-- The S3 object key of `validate_remote_cloudformation_template` (line 146):
the MD5 hex digest of the file path. -/
def remoteObjectKey (path : List Nat) : String := md5hex path

/-- `validate_remote_cloudformation_template` (manage.py lines 143-156):
uploads the file content to S3_BUCKET under the path-derived key
(via `_upload_to_s3`, lines 111-114), then validates by URL. -/
def validate_remote_cloudformation_template (f : TemplateFile) : CfnApiCall :=
  CfnApiCall.validateRemote S3_BUCKET (remoteObjectKey f.path) f.content
    ("https://s3.amazonaws.com/" ++ S3_BUCKET ++ "/" ++ remoteObjectKey f.path)

/-- `validate_cloudformation_template_file` (manage.py lines 158-162):
size-based dispatch between local and remote validation. -/
def validate_cloudformation_template_file (f : TemplateFile) : CfnApiCall :=
  if get_file_size f ≤ CLOUDFORMATION_LOCAL_VALIDATE_LIMIT then
    validate_local_cloudformation_template f
  else
    validate_remote_cloudformation_template f

/-- The storage key of an emitted API call, if it is a remote validation. -/
def apiCallKey : CfnApiCall → Option String
  | CfnApiCall.validateLocal _ => none
  | CfnApiCall.validateRemote _ k _ _ => some k

-- Zip archive builder (`_zip_lambda_bundle`, manage.py lines 88-104).
-- A source directory is modelled by the recursive list of its regular files
-- (as enumerated by os.walk), each with its path relative to the source
-- directory, its on-disk permission mode, and its content bytes.

/-- A regular file under the source directory. -/
structure SrcFile where
  relpath : String
  mode : Nat
  content : List Nat
deriving DecidableEq

/-- zipfile.ZIP_DEFLATED. -/
def ZIP_DEFLATED : Nat := 8

/-- One entry written into the zip archive via ZipInfo/writestr. -/
structure ZipEntry where
  entryName : String
  compressType : Nat
  createSystem : Nat
  externalAttr : Nat
  payload : List Nat
deriving DecidableEq

/-- `_zip_lambda_bundle` (manage.py lines 88-104): for every file found by the
walk, write an entry named by the path relative to the source, with
compress_type ZIP_DEFLATED, create_system 3 (Unix), external_attr
0o777 <<< 16, and the file content as payload. -/
def zip_lambda_bundle (files : List SrcFile) : List ZipEntry :=
  files.map (fun f =>
    { entryName := f.relpath
      compressType := ZIP_DEFLATED
      createSystem := 3
      externalAttr := 0o777 <<< 16
      payload := f.content })

-- Lambda bundle validation (manage.py lines 164-179).

/-- What validate_lambda_bundle can observe about a path: whether it is a
directory, the names of the regular files directly inside it, and whether its
function.py compiles. -/
structure BundleDir where
  isDir : Bool
  fileNames : List String
  pyCompiles : Bool
deriving DecidableEq

/-- Outcome of validating a lambda bundle.  structureError corresponds to the
exceptions of lines 172 and 176, syntaxError to a py_compile failure. -/
inductive BundleCheck where
  | structureError (msg : String)
  | syntaxError
  | passed
deriving DecidableEq

/-- Model of `py_compile.compile(path, doraise=True)` (CPython): the source is
compiled first; on success the compiled .pyc file is written, on failure
PyCompileError is raised before any .pyc is written.  State is whether the
.pyc exists; result is (raised error, final .pyc state). -/
def py_compile_compile (compiles : Bool) (pycExists : Bool) : Option String × Bool :=
  if compiles then (none, true) else (some "PyCompileError", pycExists)

/-- `validate_python_file` (manage.py lines 164-167): compile with doraise,
then `os.remove` the .pyc.  On a compile failure the exception propagates and
the remove is never reached. -/
def validate_python_file (compiles : Bool) (pycExists : Bool) : Option String × Bool :=
  match py_compile_compile compiles pycExists with
  | (some e, st) => (some e, st)
  | (none, _) => (none, false)

/-- `validate_lambda_bundle` (manage.py lines 169-179): raise if the path is
not a directory, then raise at the first missing required file, then compile
function.py.  The second component records whether the compile step ran. -/
def validate_lambda_bundle (d : BundleDir) : BundleCheck × Bool :=
  if d.isDir = false then (BundleCheck.structureError "not a directory", false)
  else
    match LAMBDA_REQUIRED_FILES.find? (fun f => !(d.fileNames.contains f)) with
    | some f => (BundleCheck.structureError (f ++ " is missing"), false)
    | none =>
      match validate_python_file d.pyCompiles false with
      | (none, _) => (BundleCheck.passed, true)
      | (some _, _) => (BundleCheck.syntaxError, true)

-- `_copytree` (manage.py lines 26-56), modelled with Python 2 exception
-- semantics.  The call sites use symlinks=False, so the symlink branch is
-- never taken; os.listdir and os.makedirs are assumed to succeed.  An entry
-- is either a regular file or a subdirectory:
--   * file: shutil.copy2 = copyfile + copystat, then a second explicit
--     shutil.copystat (line 41).  In Python 2 a data-copy failure (open /
--     read / write inside copyfile) raises IOError, which is NOT a subclass
--     of OSError and is therefore NOT caught by `except OSError` at line 43:
--     it propagates and aborts the whole copy at that entry.  A metadata
--     failure (copystat) raises OSError, which IS caught and appended to the
--     error list as a (srcname, dstname, msg) triple.
--   * subdirectory: a recursive _copytree.  Its aggregated shutil.Error is
--     caught at line 47 and its list spliced in; an uncaught IOError or
--     AttributeError from the recursive call propagates.
-- After the loop, the trailing shutil.copystat (lines 49-54) may raise
-- OSError.  On Windows the exception is a WindowsError whose winerror
-- attribute is an int, so `why.winerror is None` is false and the failure is
-- tolerated.  On POSIX Python 2 an OSError has no winerror attribute at all,
-- so line 53 itself raises AttributeError, discarding the collected error
-- list.  Line 54 (extending the flattened (src, dst, msg) tuple) is
-- consequently unreachable in Python 2.

/-- An item of the aggregated error list: a per-entry (srcname, dstname, msg)
triple appended at line 44 (or spliced in from a recursive call at line 48). -/
inductive CopyErrItem where
  | triple (src dst msg : String)
deriving DecidableEq

/-- An exception that escapes `_copytree` uncaught on Python 2: an IOError
from a file data copy (not caught by `except OSError`), or the AttributeError
raised by the `why.winerror` attribute access at line 53 on POSIX. -/
inductive CopyExc where
  | ioError (msg : String)
  | attributeError
deriving DecidableEq

/-- The result of a `_copytree` call: normal return, a raised shutil.Error
carrying the aggregated list, or an uncaught exception. -/
inductive CopyResult where
  | ok
  | listedError (errs : List CopyErrItem)
  | uncaught (exc : CopyExc)
deriving DecidableEq

/-- An entry of a source directory as _copytree sees it.  A file records
whether its data copy fails (IOError, message) and whether its metadata copy
fails (OSError, message); a subdirectory records its entries and whether its
own trailing copystat fails. -/
inductive FsEntry where
  | file (name : String) (ioFails : Bool) (ioMsg : String)
      (statFails : Bool) (statMsg : String)
  | sub (name : String) (entries : List FsEntry) (copystatFails : Bool)

/-- os.path.join for one component. -/
def pjoin (a b : String) : String := a ++ "/" ++ b

/-- The trailing shutil.copystat of a directory (manage.py lines 49-54) on the
collected error list: no failure or a tolerated Windows failure passes the
list through; a POSIX failure raises AttributeError at line 53, losing it. -/
def copystatOutcome (windows : Bool) (csf : Bool) (errs : List CopyErrItem) :
    Except CopyExc (List CopyErrItem) :=
  if csf then
    (if windows then Except.ok errs else Except.error CopyExc.attributeError)
  else Except.ok errs

mutual

/-- What one loop iteration (manage.py lines 30-48) contributes: either an
uncaught exception that aborts the copy, or the caught failures appended to
the error list. -/
def entryOutcome (windows : Bool) (src dst : String) :
    FsEntry → Except CopyExc (List CopyErrItem)
  | FsEntry.file name iof iomsg osf osmsg =>
    if iof then Except.error (CopyExc.ioError iomsg)
    else if osf then
      Except.ok [CopyErrItem.triple (pjoin src name) (pjoin dst name) osmsg]
    else Except.ok []
  | FsEntry.sub name es csf =>
    match entriesOutcome windows (pjoin src name) (pjoin dst name) es with
    | Except.error e => Except.error e
    | Except.ok errs => copystatOutcome windows csf errs

/-- The loop over a directory's entries, in order: the first uncaught
exception aborts (discarding the collected list); otherwise the caught
failures of all entries are concatenated. -/
def entriesOutcome (windows : Bool) (src dst : String) :
    List FsEntry → Except CopyExc (List CopyErrItem)
  | [] => Except.ok []
  | e :: rest =>
    match entryOutcome windows src dst e with
    | Except.error exc => Except.error exc
    | Except.ok errs1 =>
      match entriesOutcome windows src dst rest with
      | Except.error exc => Except.error exc
      | Except.ok errs2 => Except.ok (errs1 ++ errs2)

end

/-- `_copytree` (manage.py lines 26-56) on Python 2: run the loop; propagate
an uncaught exception; run the trailing copystat; raise shutil.Error with the
collected list iff it is non-empty. -/
def copytree (windows : Bool) (src dst : String) (es : List FsEntry) (csf : Bool) :
    CopyResult :=
  match entriesOutcome windows src dst es with
  | Except.error exc => CopyResult.uncaught exc
  | Except.ok errs =>
    match copystatOutcome windows csf errs with
    | Except.error exc => CopyResult.uncaught exc
    | Except.ok errs2 =>
      if errs2.isEmpty then CopyResult.ok else CopyResult.listedError errs2

-- Bundle orchestrator (`create_deployment_bundle`, manage.py lines 206-250).
-- The three input directory classes are modelled as data; pip
-- (`_install_pip_requirements`, an external collaborator) is a function
-- parameter `materialize`; the outcome of the remote CloudFormation
-- validation phase (which depends on the provider) is the parameter `cfnOk`.

/-- One subdirectory of lambdas/: its base name, its files, and whether its
function.py compiles. -/
structure LambdaSrc where
  name : String
  files : List SrcFile
  pyCompiles : Bool

/-- One configs/*.json file: its base name and its parse result
(none = malformed JSON). -/
structure ConfigFile where
  name : String
  parsed : Option Json

/-- The canonical input tree: lambdas/, cloudformation/, configs/. -/
structure Sources where
  lambdaDirs : List LambdaSrc
  cfTemplates : List (String × List Nat)
  configFiles : List ConfigFile

/-- The build output directory tree: lambdas/*.zip, cloudformation/ (verbatim),
configs/ (rendered). -/
structure OutputTree where
  lambdaZips : List (String × List ZipEntry)
  cfCopy : List (String × List Nat)
  renderedConfigs : List (String × Json)

/-- The filesystem state the orchestrator mutates: the output directory and
the .tmp scratch workspace (none = absent), plus the read-only input tree. -/
structure BuildFs where
  outputDir : Option OutputTree
  tmpDir : Option (List LambdaSrc)
  sources : Sources

/-- The BundleDir view of a lambda source directory (it is a directory; its
file names are the relative paths of its files). -/
def bundleDirOf (b : LambdaSrc) : BundleDir :=
  { isDir := true, fileNames := b.files.map SrcFile.relpath, pyCompiles := b.pyCompiles }

/-- Whether validate_lambda_bundle passes on a lambda source directory. -/
def lambdaBundlePasses (b : LambdaSrc) : Bool :=
  match (validate_lambda_bundle (bundleDirOf b)).1 with
  | BundleCheck.passed => true
  | _ => false

/-- The validation phase (manage.py lines 209-212): cloudformation templates
(outcome of the provider calls summarized by cfnOk), then lambda bundles,
then configuration files; the first failure aborts with its error. -/
def validationError (cfnOk : Bool) (s : Sources) : Option String :=
  if !cfnOk then some "ValidationError"
  else if s.lambdaDirs.any (fun b => !lambdaBundlePasses b) then some "LambdaError"
  else if s.configFiles.any (fun c => c.parsed.isNone) then some "FormatError"
  else none

/-- GENERATED_FIELDS (manage.py lines 239-242), in the written order. -/
def GENERATED_FIELDS (initiator id : String) : List (String × Json) :=
  [("StackConfigurationBucket", Json.str initiator), ("StackBuildId", Json.str id)]

/-- The loop over configs (manage.py lines 244-246): render each file in
order; a parse failure (json.load) or a missing/non-object Parameters member
raises, leaving the configs rendered so far written.  Result: (written
rendered configs, error if raised). -/
def renderAllConfigs (fields : List (String × Json)) :
    List ConfigFile → List (String × Json) × Option String
  | [] => ([], none)
  | c :: rest =>
    match c.parsed with
    | none => ([], some "FormatError")
    | some doc =>
      match renderConfig doc fields with
      | none => ([], some "ParametersError")
      | some r =>
        match renderAllConfigs fields rest with
        | (rs, e) => ((c.name, r) :: rs, e)

/-- The output tree a successful build writes, as a function of the inputs
only. -/
def bundleOutput (materialize : LambdaSrc → LambdaSrc) (s : Sources)
    (initiator id : String) : OutputTree :=
  { lambdaZips := s.lambdaDirs.map (fun b => (b.name, zip_lambda_bundle (materialize b).files))
    cfCopy := s.cfTemplates
    renderedConfigs := (renderAllConfigs (GENERATED_FIELDS initiator id) s.configFiles).1 }

/-- `create_deployment_bundle` (manage.py lines 206-250): optional validation
phase; then the output directory and .tmp are destroyed and recreated; the
lambda tree is staged into .tmp; each bundle has its dependencies installed
(materialize) and is zipped into the output; cloudformation/ is copied
verbatim; each config is rendered; finally .tmp is removed.  Errors carry the
filesystem state at the moment of the raise. -/
def create_deployment_bundle (cfnOk : Bool) (materialize : LambdaSrc → LambdaSrc)
    (fs : BuildFs) (validate : Bool) (initiator id : String) :
    Except (String × BuildFs) BuildFs :=
  match (if validate then validationError cfnOk fs.sources else none) with
  | some msg => Except.error (msg, fs)
  | none =>
    let s := fs.sources
    let zips := s.lambdaDirs.map (fun b => (b.name, zip_lambda_bundle (materialize b).files))
    match renderAllConfigs (GENERATED_FIELDS initiator id) s.configFiles with
    | (rendered, some msg) =>
        Except.error (msg,
          { outputDir := some { lambdaZips := zips, cfCopy := s.cfTemplates,
                                renderedConfigs := rendered }
            tmpDir := some s.lambdaDirs
            sources := s })
    | (rendered, none) =>
        Except.ok
          { outputDir := some { lambdaZips := zips, cfCopy := s.cfTemplates,
                                renderedConfigs := rendered }
            tmpDir := none
            sources := s }

-- Concrete inputs used by witnesses and counterexamples.

/-- First message of the classic MD5 collision pair (Wang et al.), as a byte
string; it contains no NUL byte, so it is a wellformed POSIX path. -/
def collisionPathA : List Nat := [209, 49, 221, 2, 197, 230, 238, 196, 105, 61, 154, 6,
  152, 175, 249, 92, 47, 202, 181, 135, 18, 70, 126, 171, 64, 4, 88, 62, 184, 251, 127,
  137, 85, 173, 52, 6, 9, 244, 179, 2, 131, 228, 136, 131, 37, 113, 65, 90, 8, 81, 37,
  232, 247, 205, 201, 159, 217, 29, 189, 242, 128, 55, 60, 91, 216, 130, 62, 49, 86, 52,
  143, 91, 174, 109, 172, 212, 54, 201, 25, 198, 221, 83, 226, 180, 135, 218, 3, 253, 2,
  57, 99, 6, 210, 72, 205, 160, 233, 159, 51, 66, 15, 87, 126, 232, 206, 84, 182, 112,
  128, 168, 13, 30, 198, 152, 33, 188, 182, 168, 131, 147, 150, 249, 101, 43, 111, 247,
  42, 112]

/-- Second message of the collision pair: differs from the first in six bytes
(positions 19, 45, 59, 83, 109, 123). -/
def collisionPathB : List Nat := [209, 49, 221, 2, 197, 230, 238, 196, 105, 61, 154, 6,
  152, 175, 249, 92, 47, 202, 181, 7, 18, 70, 126, 171, 64, 4, 88, 62, 184, 251, 127,
  137, 85, 173, 52, 6, 9, 244, 179, 2, 131, 228, 136, 131, 37, 241, 65, 90, 8, 81, 37,
  232, 247, 205, 201, 159, 217, 29, 189, 114, 128, 55, 60, 91, 216, 130, 62, 49, 86, 52,
  143, 91, 174, 109, 172, 212, 54, 201, 25, 198, 221, 83, 226, 52, 135, 218, 3, 253, 2,
  57, 99, 6, 210, 72, 205, 160, 233, 159, 51, 66, 15, 87, 126, 232, 206, 84, 182, 112,
  128, 40, 13, 30, 198, 152, 33, 188, 182, 168, 131, 147, 150, 249, 101, 171, 111, 247,
  42, 112]

/-- A template body one byte over the local-validation limit. -/
def largeBody : List Nat := List.replicate 51201 97


/-- A template body exactly at the local-validation limit. -/
def boundaryBody : List Nat := List.replicate 51200 97

/-- A small configuration document used by concrete witnesses: one unrelated
top-level member and one pre-existing parameter. -/
def sampleParams : List (String × Json) := [("Existing", Json.str "x")]

/-- Top-level members of the sample configuration document. -/
def sampleMembers : List (String × Json) :=
  [("Other", Json.num 1), ("Parameters", Json.obj sampleParams)]

/-- The document `_render_configuration` writes for sampleMembers with
GENERATED_FIELDS "I1" "B1". -/
def sampleRendered : Json :=
  Json.obj [("Other", Json.num 1),
    ("Parameters", Json.obj [("Existing", Json.str "x"),
      ("StackConfigurationBucket", Json.str "I1"), ("StackBuildId", Json.str "B1")])]

/-- A small valid input tree: no lambdas, one template, one valid config. -/
def sampleSources : Sources :=
  { lambdaDirs := []
    cfTemplates := [("t.yaml", [97])]
    configFiles := [{ name := "c.json", parsed := some (Json.obj sampleMembers) }] }

/-- Leftover output of a hypothetical earlier build run. -/
def staleOutput : OutputTree :=
  { lambdaZips := [("stale", [])], cfCopy := [("old.yaml", [98])], renderedConfigs := [] }

/-- A filesystem state with a pre-existing output directory and scratch dir. -/
def sampleBuildFs : BuildFs :=
  { outputDir := some staleOutput, tmpDir := some [], sources := sampleSources }

/-- The output tree a successful build over sampleBuildFs writes. -/
def sampleOutputTree : OutputTree :=
  { lambdaZips := [], cfCopy := [("t.yaml", [97])],
    renderedConfigs := [("c.json", sampleRendered)] }

/-- The state after a successful build over sampleBuildFs. -/
def sampleResultFs : BuildFs :=
  { outputDir := some sampleOutputTree, tmpDir := none, sources := sampleSources }

/-- An input tree whose only config file is malformed JSON. -/
def badSources : Sources :=
  { lambdaDirs := [], cfTemplates := [], configFiles := [{ name := "bad.json", parsed := none }] }

/-- A filesystem state over badSources with pre-existing output. -/
def badBuildFs : BuildFs :=
  { outputDir := some staleOutput, tmpDir := some [], sources := badSources }

/-- A copy entry whose metadata copy fails with a caught OSError. -/
def wFileA : FsEntry := FsEntry.file "a" false "" true "eacces"

/-- A second copy entry whose metadata copy fails with a caught OSError. -/
def wFileB : FsEntry := FsEntry.file "b" false "" true "enoent"

/-- A copy entry whose data copy fails with an uncaught IOError. -/
def wIoFile : FsEntry := FsEntry.file "a" true "eio" false ""


-- Association-list lemmas about `setKey` / `lookupKey` / `applyFields`.

theorem objKeys_nil : objKeys [] = [] := rfl

theorem objKeys_cons (a : String) (b : Json) (tl : List (String × Json)) :
    objKeys ((a, b) :: tl) = a :: objKeys tl := rfl

theorem lookupKey_setKey_self (l : List (String × Json)) (k : String) (v : Json) :
    lookupKey k (setKey l k v) = some v := by
  induction l with
  | nil => simp [setKey, lookupKey]
  | cons hd tl ih =>
    obtain ⟨a, b⟩ := hd
    by_cases h : a = k
    · simp [setKey, h, lookupKey]
    · simp [setKey, h, lookupKey, ih]

theorem lookupKey_setKey_ne (l : List (String × Json)) (k q : String) (v : Json)
    (h : k ≠ q) : lookupKey q (setKey l k v) = lookupKey q l := by
  induction l with
  | nil => simp [setKey, lookupKey, h]
  | cons hd tl ih =>
    obtain ⟨a, b⟩ := hd
    by_cases ha : a = k
    · subst ha
      simp [setKey, lookupKey, h]
    · simp [setKey, ha, lookupKey, ih]

theorem setKey_lookup_eq (l : List (String × Json)) (k : String) (v : Json)
    (h : lookupKey k l = some v) : setKey l k v = l := by
  induction l with
  | nil => simp [lookupKey] at h
  | cons hd tl ih =>
    obtain ⟨a, b⟩ := hd
    by_cases ha : a = k
    · subst ha
      simp [lookupKey] at h
      simp [setKey, h]
    · simp [lookupKey, ha] at h
      simp [setKey, ha, ih h]

theorem setKey_setKey_same (l : List (String × Json)) (k : String) (v w : Json) :
    setKey (setKey l k v) k w = setKey l k w := by
  induction l with
  | nil => simp [setKey]
  | cons hd tl ih =>
    obtain ⟨a, b⟩ := hd
    by_cases ha : a = k
    · simp [setKey, ha]
    · simp [setKey, ha, ih]

theorem mem_objKeys_setKey_self (l : List (String × Json)) (k : String) (v : Json) :
    k ∈ objKeys (setKey l k v) := by
  induction l with
  | nil => simp [setKey, objKeys]
  | cons hd tl ih =>
    obtain ⟨a, b⟩ := hd
    by_cases ha : a = k
    · simp [setKey, ha, objKeys]
    · simp [setKey, ha, objKeys] at ih ⊢
      exact Or.inr ih

theorem mem_objKeys_setKey (l : List (String × Json)) (k q : String) (v : Json)
    (h : q ∈ objKeys l) : q ∈ objKeys (setKey l k v) := by
  induction l with
  | nil => simp [objKeys] at h
  | cons hd tl ih =>
    obtain ⟨a, b⟩ := hd
    by_cases ha : a = k
    · subst ha
      simp [objKeys] at h
      simp [setKey, objKeys]
      rcases h with h | h
      · exact Or.inl (h.symm ▸ rfl)
      · exact Or.inr h
    · simp [objKeys] at h
      simp [setKey, ha, objKeys]
      rcases h with h | h
      · exact Or.inl h
      · exact Or.inr (by simpa [objKeys] using ih (by simpa [objKeys] using h))

theorem mem_objKeys_of_lookup (l : List (String × Json)) (k : String) (v : Json)
    (h : lookupKey k l = some v) : k ∈ objKeys l := by
  induction l with
  | nil => simp [lookupKey] at h
  | cons hd tl ih =>
    obtain ⟨a, b⟩ := hd
    by_cases ha : a = k
    · simp [objKeys_cons, ha]
    · simp [lookupKey, ha] at h
      simp [objKeys_cons, List.mem_cons]
      exact Or.inr (ih h)

theorem setKey_comm (l : List (String × Json)) (k q : String) (v w : Json)
    (hne : k ≠ q) (hk : k ∈ objKeys l) :
    setKey (setKey l k v) q w = setKey (setKey l q w) k v := by
  induction l with
  | nil => simp [objKeys] at hk
  | cons hd tl ih =>
    obtain ⟨a, b⟩ := hd
    by_cases hak : a = k
    · subst hak
      simp [setKey, hne, Ne.symm hne]
    · by_cases haq : a = q
      · subst haq
        simp [setKey, hak, hne, Ne.symm hne]
      · simp [objKeys, hak] at hk
        rcases hk with hk | hk
        · exact absurd hk.symm hak
        · simp [setKey, hak, haq]
          exact ih (by simpa [objKeys] using hk)

theorem applyFields_nil (ps : List (String × Json)) : applyFields [] ps = ps := rfl

theorem applyFields_cons (k : String) (v : Json) (rest : List (String × Json))
    (ps : List (String × Json)) :
    applyFields ((k, v) :: rest) ps = applyFields rest (setKey ps k v) := rfl

theorem mem_objKeys_applyFields (f : List (String × Json)) (ps : List (String × Json))
    (k : String) (h : k ∈ objKeys ps) : k ∈ objKeys (applyFields f ps) := by
  induction f generalizing ps with
  | nil => simpa [applyFields_nil] using h
  | cons hd tl ih =>
    obtain ⟨a, b⟩ := hd
    rw [applyFields_cons]
    exact ih _ (mem_objKeys_setKey _ _ _ _ h)

theorem lookupKey_applyFields_not_mem (f : List (String × Json)) (ps : List (String × Json))
    (k : String) (h : k ∉ objKeys f) : lookupKey k (applyFields f ps) = lookupKey k ps := by
  induction f generalizing ps with
  | nil => rw [applyFields_nil]
  | cons hd tl ih =>
    obtain ⟨a, b⟩ := hd
    simp [objKeys_cons, List.mem_cons] at h
    push_neg at h
    rw [applyFields_cons, ih _ h.2, lookupKey_setKey_ne _ _ _ _ (fun e => h.1 e.symm)]

theorem applyFields_setKey_absorb (r : List (String × Json)) (ps : List (String × Json))
    (k : String) (v : Json) (hv : lookupKey k ps = some v) (hk : k ∉ objKeys r)
    (hnd : (objKeys r).Nodup) :
    applyFields r (setKey (applyFields r ps) k v) = applyFields r ps := by
  induction r generalizing ps with
  | nil =>
    simp only [applyFields_nil]
    exact setKey_lookup_eq _ _ _ hv
  | cons hd tl ih =>
    obtain ⟨q, w⟩ := hd
    simp [objKeys_cons, List.mem_cons] at hk
    push_neg at hk
    obtain ⟨hkq, hktl⟩ := hk
    rw [objKeys_cons] at hnd
    have hqtl : q ∉ objKeys tl := (List.nodup_cons.mp hnd).1
    have hndtl : (objKeys tl).Nodup := (List.nodup_cons.mp hnd).2
    rw [applyFields_cons]
    rw [applyFields_cons]
    set Y := setKey ps q w with hY
    set W := applyFields tl Y with hW
    have hkY : lookupKey k Y = some v := by
      rw [hY, lookupKey_setKey_ne _ _ _ _ (fun e => hkq e.symm)]
      exact hv
    have hkW : lookupKey k W = some v := by
      rw [hW, lookupKey_applyFields_not_mem _ _ _ hktl]
      exact hkY
    have hkmemW : k ∈ objKeys W := mem_objKeys_of_lookup _ _ _ hkW
    have hqW : lookupKey q W = some w := by
      rw [hW, lookupKey_applyFields_not_mem _ _ _ hqtl, hY, lookupKey_setKey_self]
    have hcomm : setKey (setKey W k v) q w = setKey (setKey W q w) k v :=
      setKey_comm _ _ _ _ _ hkq hkmemW
    have habs : setKey W q w = W := setKey_lookup_eq _ _ _ hqW
    calc applyFields tl (setKey (setKey W k v) q w)
        = applyFields tl (setKey (setKey W q w) k v) := by rw [hcomm]
      _ = applyFields tl (setKey W k v) := by rw [habs]
      _ = applyFields tl Y := ih Y hkY hktl hndtl

theorem applyFields_idem (f : List (String × Json)) (ps : List (String × Json))
    (hnd : (objKeys f).Nodup) :
    applyFields f (applyFields f ps) = applyFields f ps := by
  cases f with
  | nil => rfl
  | cons hd tl =>
    obtain ⟨k, v⟩ := hd
    rw [objKeys_cons] at hnd
    have hk : k ∉ objKeys tl := (List.nodup_cons.mp hnd).1
    have hndtl : (objKeys tl).Nodup := (List.nodup_cons.mp hnd).2
    rw [applyFields_cons, applyFields_cons]
    have hv : lookupKey k (setKey ps k v) = some v := lookupKey_setKey_self _ _ _
    exact applyFields_setKey_absorb tl (setKey ps k v) k v hv hk hndtl

theorem renderConfig_nil (doc : Json) : renderConfig doc [] = some doc := rfl

theorem renderConfig_cons (doc : Json) (k : String) (v : Json)
    (rest : List (String × Json)) :
    renderConfig doc ((k, v) :: rest)
      = (setParam doc k v).elim none (fun d => renderConfig d rest) := by
  cases h : setParam doc k v with
  | none =>
    show List.foldl _ _ _ = _
    rw [List.foldl_cons]
    have hstep : (some doc).bind (fun d => setParam d k v) = none := by simp [h]
    rw [hstep]
    simp only [Option.elim]
    induction rest with
    | nil => rfl
    | cons hd tl ih =>
      rw [List.foldl_cons]
      simpa using ih
  | some d =>
    show List.foldl _ _ _ = _
    rw [List.foldl_cons]
    have hstep : (some doc).bind (fun d2 => setParam d2 k v) = some d := by simp [h]
    rw [hstep]
    rfl

theorem renderConfig_obj (f : List (String × Json)) (members params : List (String × Json))
    (h : lookupKey "Parameters" members = some (Json.obj params)) :
    renderConfig (Json.obj members) f
      = some (Json.obj (setKey members "Parameters" (Json.obj (applyFields f params)))) := by
  induction f generalizing members params with
  | nil =>
    rw [renderConfig_nil, applyFields_nil, setKey_lookup_eq _ _ _ h]
  | cons hd tl ih =>
    obtain ⟨k, v⟩ := hd
    have hset : setParam (Json.obj members) k v
        = some (Json.obj (setKey members "Parameters" (Json.obj (setKey params k v)))) := by
      simp [setParam, h]
    rw [renderConfig_cons, hset]
    simp only [Option.elim]
    have hlook : lookupKey "Parameters" (setKey members "Parameters" (Json.obj (setKey params k v)))
        = some (Json.obj (setKey params k v)) := lookupKey_setKey_self _ _ _
    rw [ih _ _ hlook, setKey_setKey_same, applyFields_cons]

-- Claim theorems.

/-- C8: `_render_configuration` is idempotent on the Parameters keys it
injects: for every wellformed source document whose Parameters member is an
object and every fixed generated-fields mapping (distinct keys, as a Python
dictionary has), rendering the already-rendered output again with the same
fields yields the identical document, hence byte-identical serialized output
under the stable-key-ordering model. -/
theorem render_config_idempotent (members params fields : List (String × Json)) (d : Json)
    (hpar : lookupKey "Parameters" members = some (Json.obj params))
    (hnd : (objKeys fields).Nodup)
    (hout : renderConfig (Json.obj members) fields = some d) :
    renderConfig d fields = some d := by
  rw [renderConfig_obj fields members params hpar] at hout
  have hd : d = Json.obj (setKey members "Parameters" (Json.obj (applyFields fields params))) :=
    (Option.some.inj hout).symm
  subst hd
  rw [renderConfig_obj fields _ (applyFields fields params) (lookupKey_setKey_self _ _ _)]
  rw [setKey_setKey_same, applyFields_idem _ _ hnd]

/-- Witness for C8 at a concrete document and the concrete generated fields. -/
theorem render_config_idempotent_witness :
    lookupKey "Parameters" sampleMembers = some (Json.obj sampleParams)
    ∧ (objKeys (GENERATED_FIELDS "I1" "B1")).Nodup
    ∧ renderConfig (Json.obj sampleMembers) (GENERATED_FIELDS "I1" "B1") = some sampleRendered
    ∧ renderConfig sampleRendered (GENERATED_FIELDS "I1" "B1") = some sampleRendered :=
  ⟨rfl, by decide, rfl,
    render_config_idempotent sampleMembers sampleParams (GENERATED_FIELDS "I1" "B1")
      sampleRendered rfl (by decide) rfl⟩

/-- C10: frame property of `_render_configuration`: the output document agrees
with the source on every top-level member other than Parameters, and inside
Parameters on every key that is not a generated-fields key; only the injected
keys differ. -/
theorem render_config_frame (members params fields : List (String × Json)) (d : Json)
    (hpar : lookupKey "Parameters" members = some (Json.obj params))
    (hout : renderConfig (Json.obj members) fields = some d) :
    ∃ params2 : List (String × Json),
      d = Json.obj (setKey members "Parameters" (Json.obj params2))
      ∧ (∀ k, k ≠ "Parameters" →
          lookupKey k (setKey members "Parameters" (Json.obj params2)) = lookupKey k members)
      ∧ (∀ k, k ∉ objKeys fields → lookupKey k params2 = lookupKey k params) := by
  rw [renderConfig_obj fields members params hpar] at hout
  refine ⟨applyFields fields params, (Option.some.inj hout).symm, ?_, ?_⟩
  · intro k hk
    exact lookupKey_setKey_ne _ _ _ _ (Ne.symm hk)
  · intro k hk
    exact lookupKey_applyFields_not_mem fields params k hk

/-- Witness for C10 at a concrete document and the concrete generated fields. -/
theorem render_config_frame_witness :
    lookupKey "Parameters" sampleMembers = some (Json.obj sampleParams)
    ∧ renderConfig (Json.obj sampleMembers) (GENERATED_FIELDS "I1" "B1") = some sampleRendered
    ∧ ∃ params2 : List (String × Json),
        sampleRendered = Json.obj (setKey sampleMembers "Parameters" (Json.obj params2))
        ∧ (∀ k, k ≠ "Parameters" →
            lookupKey k (setKey sampleMembers "Parameters" (Json.obj params2))
              = lookupKey k sampleMembers)
        ∧ (∀ k, k ∉ objKeys (GENERATED_FIELDS "I1" "B1") →
            lookupKey k params2 = lookupKey k sampleParams) :=
  ⟨rfl, rfl,
    render_config_frame sampleMembers sampleParams (GENERATED_FIELDS "I1" "B1")
      sampleRendered rfl rfl⟩

/-- C1: `validate_cloudformation_template_file` dispatches on file size: at or
below 51,200 bytes it validates locally, sending the raw template body; above
51,200 bytes it validates remotely, uploading the content to the bucket under
the path-derived key and validating by URL.  The witness instantiates the
boundary sizes 51,200 and 51,201. -/
theorem validate_cloudformation_dispatch (f : TemplateFile) :
    (get_file_size f ≤ CLOUDFORMATION_LOCAL_VALIDATE_LIMIT →
      validate_cloudformation_template_file f = CfnApiCall.validateLocal f.content)
    ∧ (CLOUDFORMATION_LOCAL_VALIDATE_LIMIT < get_file_size f →
      validate_cloudformation_template_file f
        = CfnApiCall.validateRemote S3_BUCKET (remoteObjectKey f.path) f.content
            ("https://s3.amazonaws.com/" ++ S3_BUCKET ++ "/" ++ remoteObjectKey f.path)) := by
  constructor
  · intro h
    unfold validate_cloudformation_template_file
    rw [if_pos h]
    rfl
  · intro h
    unfold validate_cloudformation_template_file
    rw [if_neg (Nat.not_le.mpr h)]
    rfl

/-- The boundary body has exactly the limit size. -/
theorem boundaryBody_length : boundaryBody.length = 51200 := by
  unfold boundaryBody
  exact List.length_replicate _ _

/-- The large body is one byte over the limit. -/
theorem largeBody_length : largeBody.length = 51201 := by
  unfold largeBody
  exact List.length_replicate _ _

/-- Witness for C1 at the boundary: a 51,200-byte file validates locally and a
51,201-byte file validates remotely. -/
theorem validate_cloudformation_dispatch_witness :
    get_file_size (TemplateFile.mk [116] boundaryBody) ≤ CLOUDFORMATION_LOCAL_VALIDATE_LIMIT
    ∧ validate_cloudformation_template_file (TemplateFile.mk [116] boundaryBody)
        = CfnApiCall.validateLocal boundaryBody
    ∧ CLOUDFORMATION_LOCAL_VALIDATE_LIMIT < get_file_size (TemplateFile.mk [116] largeBody)
    ∧ validate_cloudformation_template_file (TemplateFile.mk [116] largeBody)
        = CfnApiCall.validateRemote S3_BUCKET (remoteObjectKey [116]) largeBody
            ("https://s3.amazonaws.com/" ++ S3_BUCKET ++ "/" ++ remoteObjectKey [116]) := by
  have hb : get_file_size (TemplateFile.mk [116] boundaryBody) = 51200 := boundaryBody_length
  have hl : get_file_size (TemplateFile.mk [116] largeBody) = 51201 := largeBody_length
  have h1 : get_file_size (TemplateFile.mk [116] boundaryBody)
      ≤ CLOUDFORMATION_LOCAL_VALIDATE_LIMIT := by
    rw [hb]
    exact Nat.le_refl _
  have h2 : CLOUDFORMATION_LOCAL_VALIDATE_LIMIT
      < get_file_size (TemplateFile.mk [116] largeBody) := by
    rw [hl]
    exact Nat.lt_succ_self 51200
  exact ⟨h1, (validate_cloudformation_dispatch _).1 h1, h2,
    (validate_cloudformation_dispatch _).2 h2⟩

/-- C2: `_zip_lambda_bundle` writes one entry per source file, named by the
file's path relative to the source directory, carrying the file's content,
with deflate compression, Unix create-system metadata, and permission bits
forced to 0777 via external_attr, independent of the source file's mode. -/
theorem zip_lambda_bundle_spec (files : List SrcFile) :
    List.Forall₂ (fun (f : SrcFile) (e : ZipEntry) =>
        e.entryName = f.relpath ∧ e.payload = f.content ∧ e.compressType = ZIP_DEFLATED
        ∧ e.createSystem = 3 ∧ e.externalAttr = 0o777 <<< 16 ∧ e.externalAttr >>> 16 = 0o777)
      files (zip_lambda_bundle files)
    ∧ ∀ modes : SrcFile → Nat,
        zip_lambda_bundle (files.map (fun f => { f with mode := modes f }))
          = zip_lambda_bundle files := by
  constructor
  · induction files with
    | nil => exact List.Forall₂.nil
    | cons hd tl ih =>
      refine List.Forall₂.cons ⟨rfl, rfl, rfl, rfl, rfl, ?_⟩ ih
      show (0o777 <<< 16 : Nat) >>> 16 = 0o777
      decide
  · intro modes
    simp only [zip_lambda_bundle, List.map_map]
    rfl

/-- C4: the compile step of the Lambda validator deletes its transient .pyc
by-product regardless of outcome: starting with no .pyc present, none is
present afterwards whether the source compiles (compile writes it, the
validator removes it) or not (the compile raises before writing one); and the
step succeeds exactly when the source compiles. -/
theorem validate_python_file_cleanup (compiles : Bool) :
    (validate_python_file compiles false).2 = false
    ∧ ((validate_python_file compiles false).1 = none ↔ compiles = true) := by
  cases compiles <;> simp [validate_python_file, py_compile_compile]

/-- C3: `validate_lambda_bundle` checks structure first: when the path is not
a directory or a required file (function.py, requirements.txt) is missing, it
fails with a structure error and the python compile step is never attempted
(second component false). -/
theorem validate_lambda_bundle_structure_first (d : BundleDir)
    (h : d.isDir = false ∨ LAMBDA_PY_FILE_NAME ∉ d.fileNames
        ∨ "requirements.txt" ∉ d.fileNames) :
    ∃ m, validate_lambda_bundle d = (BundleCheck.structureError m, false) := by
  cases hdir : d.isDir with
  | false =>
    refine ⟨"not a directory", ?_⟩
    unfold validate_lambda_bundle
    simp [hdir]
  | true =>
    rcases h with h | h | h
    · rw [hdir] at h
      exact absurd h (by simp)
    · refine ⟨LAMBDA_PY_FILE_NAME ++ " is missing", ?_⟩
      unfold validate_lambda_bundle LAMBDA_REQUIRED_FILES
      simp [hdir, List.find?, h]
    · by_cases hmem : LAMBDA_PY_FILE_NAME ∈ d.fileNames
      · refine ⟨"requirements.txt" ++ " is missing", ?_⟩
        unfold validate_lambda_bundle LAMBDA_REQUIRED_FILES
        simp [hdir, List.find?, hmem, h]
      · refine ⟨LAMBDA_PY_FILE_NAME ++ " is missing", ?_⟩
        unfold validate_lambda_bundle LAMBDA_REQUIRED_FILES
        simp [hdir, List.find?, hmem]

/-- Witness for C3: a directory holding only requirements.txt fails with a
structure error without any compile attempt. -/
theorem validate_lambda_bundle_structure_first_witness :
    ((BundleDir.mk true ["requirements.txt"] true).isDir = false
      ∨ LAMBDA_PY_FILE_NAME ∉ (BundleDir.mk true ["requirements.txt"] true).fileNames
      ∨ "requirements.txt" ∉ (BundleDir.mk true ["requirements.txt"] true).fileNames)
    ∧ ∃ m, validate_lambda_bundle (BundleDir.mk true ["requirements.txt"] true)
        = (BundleCheck.structureError m, false) :=
  ⟨Or.inr (Or.inl (by decide)),
   validate_lambda_bundle_structure_first (BundleDir.mk true ["requirements.txt"] true)
     (Or.inr (Or.inl (by decide)))⟩

theorem entriesOutcome_nil (windows : Bool) (src dst : String) :
    entriesOutcome windows src dst [] = Except.ok [] := by
  simp [entriesOutcome]

theorem entriesOutcome_cons (windows : Bool) (src dst : String) (e : FsEntry)
    (rest : List FsEntry) :
    entriesOutcome windows src dst (e :: rest)
      = (match entryOutcome windows src dst e with
         | Except.error exc => Except.error exc
         | Except.ok errs1 =>
           match entriesOutcome windows src dst rest with
           | Except.error exc => Except.error exc
           | Except.ok errs2 => Except.ok (errs1 ++ errs2)) := by
  simp [entriesOutcome]

theorem entriesOutcome_ok_append (windows : Bool) (src dst : String)
    (l1 l2 : List FsEntry) (errs : List CopyErrItem)
    (h : entriesOutcome windows src dst (l1 ++ l2) = Except.ok errs) :
    ∃ a b, entriesOutcome windows src dst l1 = Except.ok a
      ∧ entriesOutcome windows src dst l2 = Except.ok b ∧ errs = a ++ b := by
  induction l1 generalizing errs with
  | nil =>
    exact ⟨[], errs, entriesOutcome_nil windows src dst, h, rfl⟩
  | cons x xs ih =>
    rw [List.cons_append, entriesOutcome_cons] at h
    rcases hx : entryOutcome windows src dst x with exc | ex
    · rw [hx] at h
      simp at h
    · rw [hx] at h
      rcases hrest : entriesOutcome windows src dst (xs ++ l2) with exc | rest
      · rw [hrest] at h
        simp at h
      · rw [hrest] at h
        simp only [Except.ok.injEq] at h
        obtain ⟨a, b, ha, hb, hab⟩ := ih rest hrest
        refine ⟨ex ++ a, b, ?_, hb, ?_⟩
        · rw [entriesOutcome_cons, hx, ha]
        · rw [← h, hab, List.append_assoc]

theorem entriesOutcome_short_circuit (windows : Bool) (src dst : String)
    (l1 : List FsEntry) (e : FsEntry) (l2 : List FsEntry) (exc : CopyExc)
    (hok : ∀ e2 ∈ l1, ∃ errs2, entryOutcome windows src dst e2 = Except.ok errs2)
    (he : entryOutcome windows src dst e = Except.error exc) :
    entriesOutcome windows src dst (l1 ++ e :: l2) = Except.error exc := by
  induction l1 with
  | nil =>
    rw [List.nil_append, entriesOutcome_cons, he]
  | cons x xs ih =>
    obtain ⟨ex, hx⟩ := hok x (List.mem_cons_self x xs)
    have htail := ih (fun e2 h2 => hok e2 (List.mem_cons_of_mem x h2))
    rw [List.cons_append, entriesOutcome_cons, hx, htail]

/-- C5 counterexample: on POSIX, the first entry's data-copy failure raises an
IOError that `except OSError` (manage.py line 43) does not catch in Python 2:
the copy aborts at that entry with the IOError uncaught, the second entry is
never attempted even though it too would fail, and no aggregated error list is
raised — refuting "attempts to copy every entry, collects every per-entry
failure, and raises a single IOError listing all of them". -/
theorem copytree_short_circuits_on_ioerror :
    copytree false "src" "dst" [wIoFile, wFileB] false
      = CopyResult.uncaught (CopyExc.ioError "eio")
    ∧ entryOutcome false "src" "dst" wFileB
        = Except.ok [CopyErrItem.triple "src/b" "dst/b" "enoent"]
    ∧ copytree false "src" "dst" [wIoFile, wFileB] false
      ≠ CopyResult.listedError [CopyErrItem.triple "src/b" "dst/b" "enoent"] := by
  refine ⟨?_, ?_, ?_⟩
  · simp [copytree, entriesOutcome, entryOutcome, wIoFile]
  · simp [entryOutcome, wFileB, pjoin]
  · simp [copytree, entriesOutcome, entryOutcome, wIoFile]

/-- C5 (amended, per Python 2 exception semantics): `_copytree` aggregates the
per-entry failures it catches (OSError metadata failures and recursive
aggregates) across all entries without aborting, and, when the loop completes
and the trailing top-level copystat does not fail on POSIX, raises a single
error listing exactly the collected failures iff at least one was collected;
but a per-entry data-copy failure (IOError, not caught by `except OSError` in
Python 2) propagates uncaught at the first such entry, aborting the copy and
discarding the collected list; a top-level metadata-copy failure is tolerated
on Windows (winerror is an int, never None), while on POSIX the winerror
attribute access itself raises AttributeError, likewise discarding the list. -/
theorem copytree_error_semantics (windows : Bool) (src dst : String)
    (es : List FsEntry) (csf : Bool) :
    (∀ errs l1 e l2 errsE, entriesOutcome windows src dst es = Except.ok errs →
        es = l1 ++ e :: l2 → entryOutcome windows src dst e = Except.ok errsE →
        ∀ it ∈ errsE, it ∈ errs)
    ∧ (∀ l1 e l2 exc, es = l1 ++ e :: l2 →
        (∀ e2 ∈ l1, ∃ errs2, entryOutcome windows src dst e2 = Except.ok errs2) →
        entryOutcome windows src dst e = Except.error exc →
        copytree windows src dst es csf = CopyResult.uncaught exc)
    ∧ (∀ errs, entriesOutcome windows src dst es = Except.ok errs →
        (csf = false ∨ windows = true) →
        copytree windows src dst es csf
          = (if errs.isEmpty then CopyResult.ok else CopyResult.listedError errs))
    ∧ (∀ errs, entriesOutcome windows src dst es = Except.ok errs →
        csf = true → windows = false →
        copytree windows src dst es csf = CopyResult.uncaught CopyExc.attributeError) := by
  refine ⟨?_, ?_, ?_, ?_⟩
  · intro errs l1 e l2 errsE h hsplit he it hit
    subst hsplit
    obtain ⟨a, b, ha, hb, hab⟩ := entriesOutcome_ok_append windows src dst l1 (e :: l2) errs h
    rw [entriesOutcome_cons, he] at hb
    rcases hc : entriesOutcome windows src dst l2 with exc | c
    · rw [hc] at hb
      simp at hb
    · rw [hc] at hb
      simp only [Except.ok.injEq] at hb
      subst hab
      rw [← hb]
      exact List.mem_append.mpr (Or.inr (List.mem_append.mpr (Or.inl hit)))
  · intro l1 e l2 exc hsplit hok he
    subst hsplit
    unfold copytree
    rw [entriesOutcome_short_circuit windows src dst l1 e l2 exc hok he]
  · intro errs h hcase
    unfold copytree
    rw [h]
    dsimp only
    have hstat : copystatOutcome windows csf errs = Except.ok errs := by
      rcases hcase with hc | hc
      · subst hc
        simp [copystatOutcome]
      · subst hc
        cases csf <;> simp [copystatOutcome]
    rw [hstat]
  · intro errs h hcsf hwin
    subst hcsf
    subst hwin
    unfold copytree
    rw [h]
    simp [copystatOutcome]

/-- Witness for C5 (amended): two entries with caught metadata failures are
both collected, the second entry's triple appearing in the aggregate. -/
theorem copytree_error_semantics_witness :
    entriesOutcome false "s" "d" [wFileA, wFileB]
      = Except.ok [CopyErrItem.triple "s/a" "d/a" "eacces",
          CopyErrItem.triple "s/b" "d/b" "enoent"]
    ∧ ([wFileA, wFileB] : List FsEntry) = [wFileA] ++ wFileB :: []
    ∧ entryOutcome false "s" "d" wFileB
        = Except.ok [CopyErrItem.triple "s/b" "d/b" "enoent"]
    ∧ CopyErrItem.triple "s/b" "d/b" "enoent"
        ∈ [CopyErrItem.triple "s/a" "d/a" "eacces", CopyErrItem.triple "s/b" "d/b" "enoent"] := by
  refine ⟨?_, rfl, ?_, ?_⟩
  · simp [entriesOutcome, entryOutcome, wFileA, wFileB, pjoin]
  · simp [entryOutcome, wFileB, pjoin]
  · exact (copytree_error_semantics false "s" "d" [wFileA, wFileB] false).1
      [CopyErrItem.triple "s/a" "d/a" "eacces", CopyErrItem.triple "s/b" "d/b" "enoent"]
      [wFileA] wFileB []
      [CopyErrItem.triple "s/b" "d/b" "enoent"]
      (by simp [entriesOutcome, entryOutcome, wFileA, wFileB, pjoin]) rfl
      (by simp [entryOutcome, wFileB, pjoin])
      (CopyErrItem.triple "s/b" "d/b" "enoent") (by simp)

/-- C6: a successful `create_deployment_bundle` run leaves an output directory
fully determined by the canonical sources (independent of any pre-existing
output or scratch content, which are destroyed and recreated before any output
is written), removes the scratch workspace, and does not touch the sources;
hence rerunning over the produced state reproduces it exactly and nothing
from a prior run survives. -/
theorem create_bundle_replaces_output (cfnOk : Bool) (materialize : LambdaSrc → LambdaSrc)
    (fs : BuildFs) (validate : Bool) (initiator id : String) (fs2 : BuildFs)
    (h : create_deployment_bundle cfnOk materialize fs validate initiator id
          = Except.ok fs2) :
    fs2.outputDir = some (bundleOutput materialize fs.sources initiator id)
    ∧ fs2.tmpDir = none
    ∧ fs2.sources = fs.sources
    ∧ create_deployment_bundle cfnOk materialize fs2 validate initiator id
        = Except.ok fs2 := by
  unfold create_deployment_bundle at h
  rcases hv : (if validate then validationError cfnOk fs.sources else none) with _ | msg
  · rw [hv] at h
    dsimp only at h
    rcases hr : renderAllConfigs (GENERATED_FIELDS initiator id) fs.sources.configFiles
      with ⟨rendered, err⟩
    rw [hr] at h
    cases err with
    | some msg2 => simp at h
    | none =>
      simp only [Except.ok.injEq] at h
      subst h
      refine ⟨by simp [bundleOutput, hr], rfl, rfl, ?_⟩
      unfold create_deployment_bundle
      dsimp only
      rw [hv]
      dsimp only
      rw [hr]
  · rw [hv] at h
    dsimp only at h
    simp at h

/-- Witness for C6: a concrete build over a pre-populated output directory
yields exactly sampleResultFs, and rerunning reproduces it. -/
theorem create_bundle_replaces_output_witness :
    create_deployment_bundle true (fun b => b) sampleBuildFs true "I1" "B1"
        = Except.ok sampleResultFs
    ∧ (sampleResultFs.outputDir
          = some (bundleOutput (fun b => b) sampleBuildFs.sources "I1" "B1")
       ∧ sampleResultFs.tmpDir = none
       ∧ sampleResultFs.sources = sampleBuildFs.sources
       ∧ create_deployment_bundle true (fun b => b) sampleResultFs true "I1" "B1"
          = Except.ok sampleResultFs) :=
  ⟨rfl, create_bundle_replaces_output true (fun b => b) sampleBuildFs true "I1" "B1"
      sampleResultFs rfl⟩

/-- C7: with validation enabled, a failing validator aborts the build before
any output is touched: the result is an error carrying the initial filesystem
state, so the pre-existing output directory and scratch workspace are exactly
as before the run. -/
theorem create_bundle_validation_aborts (cfnOk : Bool) (materialize : LambdaSrc → LambdaSrc)
    (fs : BuildFs) (initiator id : String) (msg : String)
    (h : validationError cfnOk fs.sources = some msg) :
    create_deployment_bundle cfnOk materialize fs true initiator id
      = Except.error (msg, fs) := by
  unfold create_deployment_bundle
  simp [h]

/-- Witness for C7: a malformed configuration file makes validation fail and
the build aborts with the filesystem untouched. -/
theorem create_bundle_validation_aborts_witness :
    validationError true badSources = some "FormatError"
    ∧ create_deployment_bundle true (fun b => b) badBuildFs true "I1" "B1"
        = Except.error ("FormatError", badBuildFs) :=
  ⟨rfl, create_bundle_validation_aborts true (fun b => b) badBuildFs "I1" "B1"
      "FormatError" rfl⟩

set_option maxRecDepth 100000 in
/-- C9 counterexample: two distinct paths (the classic MD5 collision pair,
valid NUL-free POSIX path byte strings) holding byte-identical over-limit
content are both routed to remote validation yet receive the SAME storage
key, refuting "two distinct paths holding byte-identical content yield
distinct keys". -/
theorem remote_key_md5_collision :
    collisionPathA ≠ collisionPathB
    ∧ CLOUDFORMATION_LOCAL_VALIDATE_LIMIT
        < get_file_size (TemplateFile.mk collisionPathA largeBody)
    ∧ validate_cloudformation_template_file (TemplateFile.mk collisionPathA largeBody)
        = validate_remote_cloudformation_template (TemplateFile.mk collisionPathA largeBody)
    ∧ validate_cloudformation_template_file (TemplateFile.mk collisionPathB largeBody)
        = validate_remote_cloudformation_template (TemplateFile.mk collisionPathB largeBody)
    ∧ remoteObjectKey collisionPathA = remoteObjectKey collisionPathB := by
  have hsizeA : CLOUDFORMATION_LOCAL_VALIDATE_LIMIT
      < get_file_size (TemplateFile.mk collisionPathA largeBody) := by
    have he : get_file_size (TemplateFile.mk collisionPathA largeBody) = 51201 :=
      largeBody_length
    rw [he]
    exact Nat.lt_succ_self 51200
  have hsizeB : CLOUDFORMATION_LOCAL_VALIDATE_LIMIT
      < get_file_size (TemplateFile.mk collisionPathB largeBody) := by
    have he : get_file_size (TemplateFile.mk collisionPathB largeBody) = 51201 :=
      largeBody_length
    rw [he]
    exact Nat.lt_succ_self 51200
  refine ⟨by decide, hsizeA, ?_, ?_, by decide⟩
  · unfold validate_cloudformation_template_file
    rw [if_neg (Nat.not_le.mpr hsizeA)]
  · unfold validate_cloudformation_template_file
    rw [if_neg (Nat.not_le.mpr hsizeB)]

/-- C9 (amended): the remote-validation storage key is the MD5 hex digest of
the template's file path and is independent of the content: validating the
same path twice yields the same key whatever the contents, and two distinct
paths yield distinct keys whenever their MD5 digests differ (an MD5 collision
between the paths, as in the counterexample, is the only exception). -/
theorem remote_key_derived_from_path (p c1 c2 : List Nat) (f1 f2 : TemplateFile)
    (hdig : md5hex f1.path ≠ md5hex f2.path) :
    apiCallKey (validate_remote_cloudformation_template (TemplateFile.mk p c1))
      = some (md5hex p)
    ∧ apiCallKey (validate_remote_cloudformation_template (TemplateFile.mk p c1))
      = apiCallKey (validate_remote_cloudformation_template (TemplateFile.mk p c2))
    ∧ apiCallKey (validate_remote_cloudformation_template f1)
      ≠ apiCallKey (validate_remote_cloudformation_template f2) := by
  refine ⟨rfl, rfl, ?_⟩
  intro hkey
  apply hdig
  have hsome : some (md5hex f1.path) = some (md5hex f2.path) := hkey
  exact Option.some.inj hsome

set_option maxRecDepth 100000 in
/-- Witness for C9 (amended) at distinct one-byte paths and distinct contents. -/
theorem remote_key_derived_from_path_witness :
    md5hex (TemplateFile.mk [0] []).path ≠ md5hex (TemplateFile.mk [1] []).path
    ∧ (apiCallKey (validate_remote_cloudformation_template (TemplateFile.mk [2] []))
         = some (md5hex [2])
       ∧ apiCallKey (validate_remote_cloudformation_template (TemplateFile.mk [2] []))
         = apiCallKey (validate_remote_cloudformation_template (TemplateFile.mk [2] [3]))
       ∧ apiCallKey (validate_remote_cloudformation_template (TemplateFile.mk [0] []))
         ≠ apiCallKey (validate_remote_cloudformation_template (TemplateFile.mk [1] []))) :=
  ⟨by decide, remote_key_derived_from_path [2] [] [3] (TemplateFile.mk [0] [])
      (TemplateFile.mk [1] []) (by decide)⟩
